import Mathlib

/-!
Verification development for the audit-trail library: a shallow embedding of
the entry normalization, JSON payload marshalling, SQL placeholder building,
publish/record pipeline, consumer acknowledge decisions, and lifecycle
shutdown, together with theorems about the stated properties.

Modelling conventions: Go errors are plain strings (an absent error is none);
the database executor and the queue transport are explicit function
parameters; the random byte source used for id generation and the clock are
explicit parameters, since the Go code reads them through crypto/rand and a
now function.
-/

deriving instance DecidableEq for Except

namespace AuditTrailModel

/-- Characters treated as white space by the model of Go strings.TrimSpace
(the ASCII white-space characters plus the two Latin-1 white-space code
points NEL and NBSP recognized by unicode.IsSpace). -/
def goIsSpace (c : Char) : Bool :=
  c = ' ' || c = Char.ofNat 9 || c = Char.ofNat 10 || c = Char.ofNat 11 ||
  c = Char.ofNat 12 || c = Char.ofNat 13 || c = Char.ofNat 133 || c = Char.ofNat 160

/-- Model of Go strings.TrimSpace: drop leading and trailing white space. -/
def goTrimSpace (s : String) : String :=
  (((s.toList.dropWhile goIsSpace).reverse.dropWhile goIsSpace).reverse).asString

/-- Model of Go time.Time: an instant (seconds and nanoseconds) plus a flag
recording whether the location is UTC.  The zero value of time.Time is the
instant with sec = 0 and nsec = 0. -/
structure GoTime where
  sec : Int
  nsec : Int
  isUTC : Bool
deriving DecidableEq, Repr

/-- Model of time.Time.IsZero: the instant is the zero instant. -/
def GoTime.isZero (t : GoTime) : Bool :=
  t.sec == 0 && t.nsec == 0

/-- Model of time.Time.UTC: same instant, location set to UTC. -/
def GoTime.utc (t : GoTime) : GoTime :=
  { t with isUTC := true }

/-- Model of a Go value held in the Request / Response fields of an Entry
(`any` in the source).  The constructors mirror the cases of the type switch
in marshalJSONValue: nil, json.RawMessage, a byte slice (its content given as
a string of its bytes), a string, and any other value, carried together with
the result of json.Marshal on it (none when json.Marshal fails). -/
inductive JSONValue where
  | vnil : JSONValue
  | raw (s : String) : JSONValue
  | bytes (s : String) : JSONValue
  | str (s : String) : JSONValue
  | other (enc : Option String) : JSONValue
deriving DecidableEq, Repr

/-- Model of database/sql NullString. -/
structure NullString where
  str : String
  valid : Bool
deriving DecidableEq, Repr

/-- The invalid NullString, rendered as SQL NULL (sql.NullString zero value). -/
def nullStringNone : NullString :=
  { str := "", valid := false }

/-- Model of the Entry struct from audittrail.go. -/
structure Entry where
  id : String
  requestID : String
  action : String
  endpoint : String
  request : JSONValue
  response : JSONValue
  createdDate : GoTime
  createdBy : String
deriving DecidableEq, Repr

/-- Decimal digit accumulation loop behind the model of fmt.Sprintf with a
percent-d verb: peel the least significant digit into the accumulator. -/
def natDecAux (n : Nat) (acc : List Char) : List Char :=
  if h : n = 0 then acc
  else natDecAux (n / 10) (Char.ofNat (48 + n % 10) :: acc)
termination_by n
decreasing_by exact Nat.div_lt_self (Nat.pos_of_ne_zero h) (by decide)

/-- Decimal rendering of a natural number. -/
def natDec (n : Nat) : String :=
  if n = 0 then "0" else (natDecAux n []).asString

/-- Decimal rendering of an integer, the model of fmt.Sprintf with a
percent-d verb on an int64. -/
def intDec (i : Int) : String :=
  if i < 0 then "-" ++ natDec i.natAbs else natDec i.toNat

/-- Lowercase hexadecimal digit for a value below 16. -/
def hexDigitChar (n : Nat) : Char :=
  if n < 10 then Char.ofNat (48 + n) else Char.ofNat (87 + n)

/-- Two lowercase hexadecimal digits of one byte (model of encoding/hex). -/
def byteHex (b : Fin 256) : String :=
  String.mk [hexDigitChar (b.val / 16), hexDigitChar (b.val % 16)]

/-- Hexadecimal encoding of a byte list (model of hex.EncodeToString). -/
def hexEncodeList : List (Fin 256) → String
  | [] => ""
  | b :: rest => byteHex b ++ hexEncodeList rest

/-- Hexadecimal encoding of a 16 byte array. -/
def hexEncode16 (bs : Fin 16 → Fin 256) : String :=
  hexEncodeList ((List.finRange 16).map bs)

/-- Model of newID from audittrail.go: when crypto/rand succeeds (rand is
some 16 byte array) the id is its hex encoding; otherwise the decimal
rendering of the current UnixNano clock reading. -/
def newID (rand : Option (Fin 16 → Fin 256)) (fallbackNano : Int) : String :=
  match rand with
  | some bs => hexEncode16 bs
  | none => intDec fallbackNano

/-- The first conditional mutation of normalizeEntry: generate an id when the
entry has none. -/
def fillID (entry : Entry) (rand : Option (Fin 16 → Fin 256)) (fallbackNano : Int) : Entry :=
  if entry.id = "" then { entry with id := newID rand fallbackNano } else entry

/-- The second conditional mutation of normalizeEntry: stamp the UTC reading
of the clock when the creation date is the zero time. -/
def fillDate (entry : Entry) (nowVal : GoTime) : Entry :=
  if entry.createdDate.isZero then { entry with createdDate := GoTime.utc nowVal } else entry

/-- Model of normalizeEntry from audittrail.go.  nowVal is the value the
(non-nil) now function returns when called; rand and fallbackNano feed
newID. -/
def normalizeEntry (entry : Entry) (nowVal : GoTime) (rand : Option (Fin 16 → Fin 256))
    (fallbackNano : Int) : Except String Entry :=
  if goTrimSpace entry.action = "" then
    Except.error "audittrail: field Action is required"
  else
    Except.ok (fillDate (fillID entry rand fallbackNano) nowVal)

/-- Model of nullString from audittrail.go: a string that is empty after
trimming becomes SQL NULL. -/
def nullString (s : String) : NullString :=
  if goTrimSpace s = "" then nullStringNone else { str := s, valid := true }

/-- Model of marshalJSONValue from audittrail.go, case by case along the Go
type switch. -/
def marshalJSONValue : JSONValue → Except String NullString
  | JSONValue.vnil => Except.ok nullStringNone
  | JSONValue.raw s => Except.ok { str := s, valid := true }
  | JSONValue.bytes s =>
      if s = "" then Except.ok nullStringNone else Except.ok { str := s, valid := true }
  | JSONValue.str s =>
      if goTrimSpace s = "" then Except.ok nullStringNone
      else Except.ok { str := s, valid := true }
  | JSONValue.other none => Except.error "audittrail: marshal JSON failed"
  | JSONValue.other (some enc) => Except.ok { str := enc, valid := true }

/-- Model of the PlaceholderStyle constants. -/
inductive PlaceholderStyle where
  | unknown : PlaceholderStyle
  | question : PlaceholderStyle
  | dollar : PlaceholderStyle
deriving DecidableEq, Repr

/-- Model of AuditTrail.buildPlaceholders: the dollar branch renders one
numbered placeholder per loop index, the default branch fills the slice with
question marks; both are joined with a comma and a space. -/
def buildPlaceholders (style : PlaceholderStyle) (n : Nat) : String :=
  match style with
  | PlaceholderStyle.dollar =>
      String.intercalate ", " ((List.range n).map (fun i => "$" ++ Nat.repr (i + 1)))
  | _ => String.intercalate ", " (List.replicate n "?")

/-- The spec description of the dollar placeholder list, built in ascending
order ending at the index n: dollar one, dollar two, up to dollar n. -/
def dollarListAsc : Nat → List String
  | 0 => []
  | n + 1 => dollarListAsc n ++ ["$" ++ Nat.repr (n + 1)]

/-- One value bound as a statement parameter. -/
inductive SQLValue where
  | str (v : String) : SQLValue
  | nstr (v : NullString) : SQLValue
  | time (v : GoTime) : SQLValue
deriving DecidableEq, Repr

/-- A statement handed to ExecContext: the query text and the bound values. -/
structure Stmt where
  query : String
  args : List SQLValue
deriving DecidableEq, Repr

/-- The insert statement text built by AuditTrail.Record. -/
def insertQuery (table : String) (placeholders : String) : String :=
  "INSERT INTO " ++ table ++
  " (log_audit_trail_id, log_req_id, log_action, log_endpoint, log_request, log_response, log_created_date, log_created_by) VALUES (" ++
  placeholders ++ ")"

/-- The AuditTrail handle: table name, placeholder style, and whether the
database handle is non-nil (the receiver guard in Record). -/
structure AuditTrailH where
  table : String
  placeholder : PlaceholderStyle
  dbOK : Bool
deriving DecidableEq, Repr

/-- The ordered bound-value list of the insert built by AuditTrail.Record. -/
def recordArgs (n : Entry) (reqV respV : NullString) : List SQLValue :=
  [SQLValue.str n.id, SQLValue.nstr (nullString n.requestID), SQLValue.str n.action,
   SQLValue.nstr (nullString n.endpoint), SQLValue.nstr reqV, SQLValue.nstr respV,
   SQLValue.time n.createdDate, SQLValue.nstr (nullString n.createdBy)]

/-- Model of AuditTrail.Record: validate and normalize, marshal the request
and response payloads, build the insert statement, and execute it.  exec is
the database executor; the result is the returned error paired with the list
of statements passed to ExecContext. -/
def auditTrailRecord (r : AuditTrailH) (exec : Stmt → Option String) (nowVal : GoTime)
    (rand : Option (Fin 16 → Fin 256)) (fallbackNano : Int) (entry : Entry) :
    Option String × List Stmt :=
  if r.dbOK = false then (some "audittrail: instance is not initialized", [])
  else
    match normalizeEntry entry nowVal rand fallbackNano with
    | Except.error e => (some e, [])
    | Except.ok n =>
      match marshalJSONValue n.request with
      | Except.error e => (some ("audittrail: marshal request failed: " ++ e), [])
      | Except.ok reqV =>
        match marshalJSONValue n.response with
        | Except.error e => (some ("audittrail: marshal response failed: " ++ e), [])
        | Except.ok respV =>
          let stmt : Stmt :=
            { query := insertQuery r.table (buildPlaceholders r.placeholder 8),
              args := recordArgs n reqV respV }
          (exec stmt, [stmt])

/-- Outcome of PubSubRecorder.Record: the returned error and the list of
entries passed to Publisher.Publish. -/
structure RecordResult where
  err : Option String
  published : List Entry
deriving Repr

/-- Model of PubSubRecorder.Record: normalize, then publish the normalized
entry; a validation error is returned before any publish call. -/
def pubSubRecorderRecord (publish : Entry → Option String) (nowVal : GoTime)
    (rand : Option (Fin 16 → Fin 256)) (fallbackNano : Int) (entry : Entry) : RecordResult :=
  match normalizeEntry entry nowVal rand fallbackNano with
  | Except.error e => { err := some e, published := [] }
  | Except.ok n => { err := publish n, published := [n] }

/-- Model of the synchronous gcpPublisher.Publish: marshal the entry, send it
and wait on the publish result; the transport outcome is returned verbatim.
encode models json.Marshal on the entry, transportSend models
topic.Publish followed by result.Get. -/
def gcpPublish (encode : Entry → Except String String) (transportSend : String → Option String)
    (entry : Entry) : Option String :=
  match encode entry with
  | Except.error e => some e
  | Except.ok data => transportSend data

/-- Acknowledge decision for one delivered message. -/
inductive Ack where
  | ack : Ack
  | nack : Ack
deriving DecidableEq, Repr

/-- Observable outcome of processing one delivered message in the
gcpSubscriber.Receive callback wired through Consumer.Run. -/
structure MessageResult where
  decision : Ack
  handlerInvoked : Bool
  insertCalls : Nat
  onErrorCalls : Nat
deriving DecidableEq, Repr

/-- Model of the per-message callback of gcpSubscriber.Receive composed with
the handler of Consumer.Run: a decode failure nacks without invoking the
handler; a handler error invokes onError (when present) and nacks; otherwise
the message is acked.  record returns the handler error together with the
number of insert executions it performed. -/
def processMessage (dec : String → Option Entry) (hasOnError : Bool)
    (record : Entry → Option String × Nat) (data : String) : MessageResult :=
  match dec data with
  | none => { decision := Ack.nack, handlerInvoked := false, insertCalls := 0, onErrorCalls := 0 }
  | some entry =>
    match record entry with
    | (some _, ins) =>
        { decision := Ack.nack, handlerInvoked := true, insertCalls := ins,
          onErrorCalls := if hasOnError then 1 else 0 }
    | (none, ins) =>
        { decision := Ack.ack, handlerInvoked := true, insertCalls := ins, onErrorCalls := 0 }

/-- The concrete handler Consumer.Run passes to the subscriber: one call to
AuditTrail.Record, reporting its error and its insert-execution count. -/
def consumerRecord (r : AuditTrailH) (exec : Stmt → Option String) (nowVal : GoTime)
    (rand : Option (Fin 16 → Fin 256)) (fallbackNano : Int) (entry : Entry) :
    Option String × Nat :=
  ((auditTrailRecord r exec nowVal rand fallbackNano entry).1,
   (auditTrailRecord r exec nowVal rand fallbackNano entry).2.length)

/-- One delivered message processed by the full consume pipeline. -/
def consumerProcessMessage (dec : String → Option Entry) (hasOnError : Bool)
    (r : AuditTrailH) (exec : Stmt → Option String) (nowVal : GoTime)
    (rand : Option (Fin 16 → Fin 256)) (fallbackNano : Int) (data : String) : MessageResult :=
  processMessage dec hasOnError (consumerRecord r exec nowVal rand fallbackNano) data

/-- Model of Consumer.Run over a finite delivery trace: every delivered
message goes through the per-message callback, and Run returns exactly the
terminal error of Subscriber.Receive (the callback returns no value to the
subscription, so message outcomes cannot influence the return). -/
def consumerRun (dec : String → Option Entry) (hasOnError : Bool) (r : AuditTrailH)
    (exec : Stmt → Option String) (nowVal : GoTime) (rand : Option (Fin 16 → Fin 256))
    (fallbackNano : Int) (msgs : List String) (terminal : Option String) :
    List MessageResult × Option String :=
  (msgs.map (consumerProcessMessage dec hasOnError r exec nowVal rand fallbackNano), terminal)

/-- The mutex-guarded lifecycle flags and resource slots of the package-level
runtime value in env.go (a resource slot records whether the field is
non-nil). -/
structure RuntimeState where
  initialized : Bool
  initializing : Bool
  hasCancel : Bool
  hasDB : Bool
  hasClient : Bool
deriving DecidableEq, Repr

/-- The runtime state before any initialization: all flags false, all
resource slots nil. -/
def emptyRuntimeState : RuntimeState :=
  { initialized := false, initializing := false, hasCancel := false,
    hasDB := false, hasClient := false }

/-- Outcome of the wait on the consumer wait group inside Shutdown: either
the background task finished first, or the caller context expired first with
the given context error. -/
inductive WaitOutcome where
  | done : WaitOutcome
  | ctxExpired (err : String) : WaitOutcome
deriving DecidableEq, Repr

/-- Observable outcome of Shutdown: the runtime state afterwards, the
returned error, and which effects ran. -/
structure ShutdownResult where
  state : RuntimeState
  err : Option String
  cancelCalled : Bool
  clientClosed : Bool
  dbClosed : Bool
deriving DecidableEq, Repr

/-- Model of Shutdown from env.go: when not initialized it only clears the
initializing flag and returns nil; otherwise it cancels the background
context, waits for the consumer task (bounded by the caller context), and on
success closes the queue client and database handle and resets all state. -/
def shutdown (st : RuntimeState) (wait : WaitOutcome) : ShutdownResult :=
  if st.initialized = false then
    { state := { st with initializing := false }, err := none,
      cancelCalled := false, clientClosed := false, dbClosed := false }
  else
    match wait with
    | WaitOutcome.ctxExpired e =>
        { state := st, err := some e, cancelCalled := st.hasCancel,
          clientClosed := false, dbClosed := false }
    | WaitOutcome.done =>
        { state := emptyRuntimeState, err := none, cancelCalled := st.hasCancel,
          clientClosed := st.hasClient, dbClosed := st.hasDB }

/-! Concrete inputs used by witness and counterexample theorems. -/

/-- A caller-supplied entry with no id and the zero creation date. -/
def entryW : Entry :=
  { id := "", requestID := "req-1", action := "login", endpoint := "/api/login",
    request := JSONValue.vnil, response := JSONValue.vnil,
    createdDate := { sec := 0, nsec := 0, isUTC := false }, createdBy := "service-a" }

/-- An already-normalized entry: non-empty id, non-empty action, non-zero
UTC creation date. -/
def entryNormW : Entry :=
  { id := "abc123", requestID := "", action := "login", endpoint := "",
    request := JSONValue.vnil, response := JSONValue.vnil,
    createdDate := { sec := 5, nsec := 0, isUTC := true }, createdBy := "" }

/-- An entry whose action is white space only. -/
def entryBadW : Entry :=
  { id := "x", requestID := "", action := "   ", endpoint := "",
    request := JSONValue.vnil, response := JSONValue.vnil,
    createdDate := { sec := 0, nsec := 0, isUTC := false }, createdBy := "" }

/-- A successfully decoded queue entry that was never normalized: empty id,
valid action, non-zero creation date. -/
def entryDecodedW : Entry :=
  { id := "", requestID := "", action := "login", endpoint := "",
    request := JSONValue.vnil, response := JSONValue.vnil,
    createdDate := { sec := 1, nsec := 0, isUTC := true }, createdBy := "" }

/-- A non-zero clock reading. -/
def nowW : GoTime :=
  { sec := 1704164645, nsec := 0, isUTC := false }

/-- A second, different non-zero clock reading. -/
def nowW2 : GoTime :=
  { sec := 1704164700, nsec := 0, isUTC := false }

/-- A random source whose sixteen bytes are all zero. -/
def randW : Option (Fin 16 → Fin 256) :=
  some (fun _ => (0 : Fin 256))

/-- A publisher that accepts every entry. -/
def pubOkW : Entry → Option String :=
  fun _ => none

/-- A database executor that accepts every statement. -/
def execOkW : Stmt → Option String :=
  fun _ => none

/-- A database executor that rejects every statement. -/
def execErrW : Stmt → Option String :=
  fun _ => some "insert failed"

/-- A question-mark style store handle. -/
def atW : AuditTrailH :=
  { table := "audit_trail", placeholder := PlaceholderStyle.question, dbOK := true }

/-- A decoder that decodes the payload good to an already-normalized entry
and fails on everything else. -/
def decW : String → Option Entry :=
  fun d => if d = "good" then some entryNormW else none

/-- An encoder that always succeeds with a fixed payload. -/
def encodeW : Entry → Except String String :=
  fun _ => Except.ok "payload"

/-- A transport whose publish confirmation always reports a failure. -/
def transportErrW : String → Option String :=
  fun _ => some "pubsub unavailable"

/-- The entry entryW after normalization under nowW and randW. -/
def pubEntryW : Entry :=
  fillDate (fillID entryW randW 0) nowW

/-! Helper lemmas. -/

/-- The digit accumulation loop never empties a non-empty accumulator. -/
theorem natDecAux_ne_nil (n : Nat) : ∀ acc : List Char, acc ≠ [] → natDecAux n acc ≠ [] := by
  induction n using Nat.strong_induction_on with
  | _ n ih =>
    intro acc hacc
    rw [natDecAux]
    split
    · exact hacc
    · next h =>
      exact ih (n / 10) (Nat.div_lt_self (Nat.pos_of_ne_zero h) (by decide)) _ (by simp)

/-- The decimal rendering of a natural number is never empty. -/
theorem natDec_ne_empty (n : Nat) : natDec n ≠ "" := by
  unfold natDec
  split
  · decide
  · next hne =>
    intro hc
    have hdata : natDecAux n [] = [] := congrArg String.data hc
    have h1 : natDecAux n [] = natDecAux (n / 10) [Char.ofNat (48 + n % 10)] := by
      rw [natDecAux]
      simp [hne]
    exact natDecAux_ne_nil (n / 10) [Char.ofNat (48 + n % 10)] (by simp) (h1 ▸ hdata)

/-- The decimal rendering of an integer is never empty. -/
theorem intDec_ne_empty (i : Int) : intDec i ≠ "" := by
  unfold intDec
  split
  · intro hc
    have : Char.ofNat 45 :: (natDec i.natAbs).data = [] := congrArg String.data hc
    simp at this
  · exact natDec_ne_empty _

/-- The hexadecimal encoding of a non-empty byte list is never empty. -/
theorem hexEncodeList_cons_ne_empty (b : Fin 256) (rest : List (Fin 256)) :
    hexEncodeList (b :: rest) ≠ "" := by
  intro hc
  have : hexDigitChar (b.val / 16) :: hexDigitChar (b.val % 16) ::
      (hexEncodeList rest).data = [] := congrArg String.data hc
  simp at this

/-- The hexadecimal encoding of a 16 byte array is never empty. -/
theorem hexEncode16_ne_empty (bs : Fin 16 → Fin 256) : hexEncode16 bs ≠ "" := by
  unfold hexEncode16
  have h : List.finRange 16 =
      (0 : Fin 16) :: [1, 2, 3, 4, 5, 6, 7, 8, 9, 10, 11, 12, 13, 14, 15] := by decide
  rw [h, List.map_cons]
  exact hexEncodeList_cons_ne_empty _ _

/-- A generated id is never empty, in both the random and the clock fallback
branch of newID. -/
theorem newID_ne_empty (rand : Option (Fin 16 → Fin 256)) (nano : Int) :
    newID rand nano ≠ "" := by
  cases rand with
  | some bs => exact hexEncode16_ne_empty bs
  | none => exact intDec_ne_empty nano

/-- fillID keeps the action field. -/
theorem fillID_action (e : Entry) (rand : Option (Fin 16 → Fin 256)) (nano : Int) :
    (fillID e rand nano).action = e.action := by
  unfold fillID
  split <;> rfl

/-- fillID keeps the requestID field. -/
theorem fillID_requestID (e : Entry) (rand : Option (Fin 16 → Fin 256)) (nano : Int) :
    (fillID e rand nano).requestID = e.requestID := by
  unfold fillID
  split <;> rfl

/-- fillID keeps the endpoint field. -/
theorem fillID_endpoint (e : Entry) (rand : Option (Fin 16 → Fin 256)) (nano : Int) :
    (fillID e rand nano).endpoint = e.endpoint := by
  unfold fillID
  split <;> rfl

/-- fillID keeps the request field. -/
theorem fillID_request (e : Entry) (rand : Option (Fin 16 → Fin 256)) (nano : Int) :
    (fillID e rand nano).request = e.request := by
  unfold fillID
  split <;> rfl

/-- fillID keeps the response field. -/
theorem fillID_response (e : Entry) (rand : Option (Fin 16 → Fin 256)) (nano : Int) :
    (fillID e rand nano).response = e.response := by
  unfold fillID
  split <;> rfl

/-- fillID keeps the createdBy field. -/
theorem fillID_createdBy (e : Entry) (rand : Option (Fin 16 → Fin 256)) (nano : Int) :
    (fillID e rand nano).createdBy = e.createdBy := by
  unfold fillID
  split <;> rfl

/-- fillID keeps the creation date. -/
theorem fillID_createdDate (e : Entry) (rand : Option (Fin 16 → Fin 256)) (nano : Int) :
    (fillID e rand nano).createdDate = e.createdDate := by
  unfold fillID
  split <;> rfl

/-- After fillID the id is never empty. -/
theorem fillID_id_ne_empty (e : Entry) (rand : Option (Fin 16 → Fin 256)) (nano : Int) :
    (fillID e rand nano).id ≠ "" := by
  unfold fillID
  split
  · exact newID_ne_empty rand nano
  · next h => exact h

/-- fillID is the identity on an entry that already has an id. -/
theorem fillID_of_ne (e : Entry) (rand : Option (Fin 16 → Fin 256)) (nano : Int)
    (h : e.id ≠ "") : fillID e rand nano = e := by
  unfold fillID
  simp [h]

/-- fillDate keeps the action field. -/
theorem fillDate_action (e : Entry) (t : GoTime) : (fillDate e t).action = e.action := by
  unfold fillDate
  split <;> rfl

/-- fillDate keeps the requestID field. -/
theorem fillDate_requestID (e : Entry) (t : GoTime) : (fillDate e t).requestID = e.requestID := by
  unfold fillDate
  split <;> rfl

/-- fillDate keeps the endpoint field. -/
theorem fillDate_endpoint (e : Entry) (t : GoTime) : (fillDate e t).endpoint = e.endpoint := by
  unfold fillDate
  split <;> rfl

/-- fillDate keeps the request field. -/
theorem fillDate_request (e : Entry) (t : GoTime) : (fillDate e t).request = e.request := by
  unfold fillDate
  split <;> rfl

/-- fillDate keeps the response field. -/
theorem fillDate_response (e : Entry) (t : GoTime) : (fillDate e t).response = e.response := by
  unfold fillDate
  split <;> rfl

/-- fillDate keeps the createdBy field. -/
theorem fillDate_createdBy (e : Entry) (t : GoTime) : (fillDate e t).createdBy = e.createdBy := by
  unfold fillDate
  split <;> rfl

/-- fillDate keeps the id field. -/
theorem fillDate_id (e : Entry) (t : GoTime) : (fillDate e t).id = e.id := by
  unfold fillDate
  split <;> rfl

/-- After fillDate with a non-zero clock reading the creation date is
non-zero. -/
theorem fillDate_isZero_false (e : Entry) (t : GoTime) (h : t.isZero = false) :
    ((fillDate e t).createdDate).isZero = false := by
  unfold fillDate
  split
  · exact h
  · next h2 => simpa using h2

/-- fillDate is the identity on an entry whose creation date is non-zero. -/
theorem fillDate_of_nonzero (e : Entry) (t : GoTime) (h : e.createdDate.isZero = false) :
    fillDate e t = e := by
  unfold fillDate
  simp [h]

/-- On a zero creation date fillDate stamps the UTC reading of the clock. -/
theorem fillDate_utc (e : Entry) (t : GoTime) (h : e.createdDate.isZero = true) :
    (fillDate e t).createdDate = GoTime.utc t := by
  unfold fillDate
  simp [h]

/-- normalizeEntry on a valid action returns the doubly filled entry. -/
theorem normalizeEntry_ok (e : Entry) (nowVal : GoTime) (rand : Option (Fin 16 → Fin 256))
    (nano : Int) (h : goTrimSpace e.action ≠ "") :
    normalizeEntry e nowVal rand nano = Except.ok (fillDate (fillID e rand nano) nowVal) := by
  unfold normalizeEntry
  simp [h]

/-- AuditTrail.Record executes at most one insert, and exactly one when it
returns no error. -/
theorem auditTrailRecord_insert_count (r : AuditTrailH) (exec : Stmt → Option String)
    (nowVal : GoTime) (rand : Option (Fin 16 → Fin 256)) (nano : Int) (e : Entry) :
    ((auditTrailRecord r exec nowVal rand nano e).1 = none →
      (auditTrailRecord r exec nowVal rand nano e).2.length = 1)
    ∧ (auditTrailRecord r exec nowVal rand nano e).2.length ≤ 1 := by
  unfold auditTrailRecord
  split
  · simp
  · split
    · simp
    · split
      · simp
      · split
        · simp
        · simp

/-! Claim theorems. -/

/-- C1: the synchronous gcpPublisher.Publish waits on the transport publish
confirmation and returns its outcome verbatim: when the entry encodes, the
returned error is exactly the transport outcome, every transport error is
returned to the caller, and a nil return implies the transport durably
accepted the send. -/
theorem gcpPublish_waits_for_transport (encode : Entry → Except String String)
    (transportSend : String → Option String) (entry : Entry) (data : String)
    (henc : encode entry = Except.ok data) :
    gcpPublish encode transportSend entry = transportSend data
    ∧ (∀ err, transportSend data = some err → gcpPublish encode transportSend entry = some err)
    ∧ (gcpPublish encode transportSend entry = none → transportSend data = none) := by
  have hmain : gcpPublish encode transportSend entry = transportSend data := by
    unfold gcpPublish
    rw [henc]
  exact ⟨hmain, fun err herr => hmain.trans herr, fun hnone => hmain.symm.trans hnone⟩

/-- C1 witness: with an encoder that succeeds and a transport that reports a
failure, Publish returns that failure instead of nil. -/
theorem gcpPublish_waits_for_transport_witness :
    gcpPublish encodeW transportErrW entryW = some "pubsub unavailable" :=
  (gcpPublish_waits_for_transport encodeW transportErrW entryW "payload" rfl).2.1
    "pubsub unavailable" rfl

/-- C2: whenever PubSubRecorder.Record reaches the publisher, the published
entry has a non-empty id, a non-empty trimmed action, and a non-zero
creation date (given that the clock reading is not the zero time). -/
theorem record_publishes_only_normalized (publish : Entry → Option String) (nowVal : GoTime)
    (rand : Option (Fin 16 → Fin 256)) (nano : Int) (entry : Entry)
    (hnow : nowVal.isZero = false) (e : Entry)
    (he : e ∈ (pubSubRecorderRecord publish nowVal rand nano entry).published) :
    e.id ≠ "" ∧ goTrimSpace e.action ≠ "" ∧ e.createdDate.isZero = false := by
  unfold pubSubRecorderRecord at he
  by_cases ht : goTrimSpace entry.action = ""
  · rw [normalizeEntry, if_pos ht] at he
    simp at he
  · rw [normalizeEntry_ok entry nowVal rand nano ht] at he
    simp at he
    subst he
    refine ⟨?_, ?_, ?_⟩
    · rw [fillDate_id]
      exact fillID_id_ne_empty entry rand nano
    · rw [fillDate_action, fillID_action]
      exact ht
    · exact fillDate_isZero_false _ nowVal hnow

/-- C2 witness: the concrete entry published for entryW under the clock nowW
and the all-zero random source satisfies all three invariants. -/
theorem record_publishes_only_normalized_witness :
    pubEntryW.id ≠ "" ∧ goTrimSpace pubEntryW.action ≠ ""
    ∧ pubEntryW.createdDate.isZero = false :=
  record_publishes_only_normalized pubOkW nowW randW 0 entryW (by decide) pubEntryW (by decide)

/-- C3: normalizeEntry fails exactly when the trimmed action is empty, and on
that failure the recorder publishes nothing and the store executes no
insert (the error is returned before any effect). -/
theorem normalize_rejects_iff_blank_action (entry : Entry) (nowVal : GoTime)
    (rand : Option (Fin 16 → Fin 256)) (nano : Int) (publish : Entry → Option String)
    (r : AuditTrailH) (exec : Stmt → Option String) :
    ((∃ msg, normalizeEntry entry nowVal rand nano = Except.error msg)
      ↔ goTrimSpace entry.action = "")
    ∧ (goTrimSpace entry.action = "" →
        (pubSubRecorderRecord publish nowVal rand nano entry).published = []
        ∧ (auditTrailRecord r exec nowVal rand nano entry).2 = []) := by
  constructor
  · constructor
    · rintro ⟨msg, hmsg⟩
      by_contra ht
      rw [normalizeEntry_ok entry nowVal rand nano ht] at hmsg
      simp at hmsg
    · intro ht
      refine ⟨"audittrail: field Action is required", ?_⟩
      rw [normalizeEntry, if_pos ht]
  · intro ht
    constructor
    · unfold pubSubRecorderRecord
      rw [normalizeEntry, if_pos ht]
    · unfold auditTrailRecord
      split
      · rfl
      · rw [normalizeEntry, if_pos ht]

/-- C3 witness: a white-space-only action is rejected with no publish and no
insert. -/
theorem normalize_rejects_iff_blank_action_witness :
    (pubSubRecorderRecord pubOkW nowW randW 0 entryBadW).published = []
    ∧ (auditTrailRecord atW execOkW nowW randW 0 entryBadW).2 = [] :=
  (normalize_rejects_iff_blank_action entryBadW nowW randW 0 pubOkW atW execOkW).2 (by decide)

/-- C4: normalization is idempotent and filling: on a valid action and a
non-zero clock, an already-normalized entry is returned unchanged; the
result always has a non-empty id and non-zero creation date; normalizing the
result again (under any clock and random source) returns it unchanged; a
present id and a non-zero date are never overwritten; a zero date is filled
with a UTC timestamp. -/
theorem normalize_idempotent_and_fills (entry : Entry) (nowVal nowVal2 : GoTime)
    (rand rand2 : Option (Fin 16 → Fin 256)) (nano nano2 : Int)
    (ht : goTrimSpace entry.action ≠ "") (hnow : nowVal.isZero = false) :
    (entry.id ≠ "" → entry.createdDate.isZero = false →
      normalizeEntry entry nowVal rand nano = Except.ok entry)
    ∧ normalizeEntry entry nowVal rand nano
        = Except.ok (fillDate (fillID entry rand nano) nowVal)
    ∧ (fillDate (fillID entry rand nano) nowVal).id ≠ ""
    ∧ ((fillDate (fillID entry rand nano) nowVal).createdDate).isZero = false
    ∧ normalizeEntry (fillDate (fillID entry rand nano) nowVal) nowVal2 rand2 nano2
        = Except.ok (fillDate (fillID entry rand nano) nowVal)
    ∧ (entry.id ≠ "" → (fillDate (fillID entry rand nano) nowVal).id = entry.id)
    ∧ (entry.createdDate.isZero = false →
        (fillDate (fillID entry rand nano) nowVal).createdDate = entry.createdDate)
    ∧ (entry.createdDate.isZero = true →
        ((fillDate (fillID entry rand nano) nowVal).createdDate).isUTC = true) := by
  have hid : (fillDate (fillID entry rand nano) nowVal).id ≠ "" := by
    rw [fillDate_id]
    exact fillID_id_ne_empty entry rand nano
  have hz : ((fillDate (fillID entry rand nano) nowVal).createdDate).isZero = false :=
    fillDate_isZero_false _ nowVal hnow
  have hact : goTrimSpace (fillDate (fillID entry rand nano) nowVal).action ≠ "" := by
    rw [fillDate_action, fillID_action]
    exact ht
  refine ⟨?_, normalizeEntry_ok entry nowVal rand nano ht, hid, hz, ?_, ?_, ?_, ?_⟩
  · intro h1 h2
    rw [normalizeEntry_ok entry nowVal rand nano ht, fillID_of_ne entry rand nano h1,
      fillDate_of_nonzero entry nowVal h2]
  · rw [normalizeEntry_ok _ nowVal2 rand2 nano2 hact,
      fillID_of_ne _ rand2 nano2 hid, fillDate_of_nonzero _ nowVal2 hz]
  · intro h1
    rw [fillDate_id, fillID_of_ne entry rand nano h1]
  · intro h2
    rw [fillDate_of_nonzero _ nowVal (by rw [fillID_createdDate]; exact h2),
      fillID_createdDate]
  · intro h2
    rw [fillDate_utc _ nowVal (by rw [fillID_createdDate]; exact h2)]
    rfl

/-- C4 witness: an already-normalized concrete entry is returned unchanged by
normalizeEntry. -/
theorem normalize_idempotent_and_fills_witness :
    normalizeEntry entryNormW nowW randW 0 = Except.ok entryNormW :=
  (normalize_idempotent_and_fills entryNormW nowW nowW2 randW randW 0 0
    (by decide) (by decide)).1 (by decide) (by decide)

/-- C5: marshalJSONValue stores nil, an empty byte slice, and an empty or
white-space-only string as SQL NULL (an invalid NullString, never an empty
document), passes raw JSON, non-empty byte slices, and non-blank strings
through unchanged, and stores the JSON encoding of every other value. -/
theorem marshal_null_and_passthrough (s sbad b r enc : String)
    (hs : goTrimSpace s ≠ "") (hsbad : goTrimSpace sbad = "") (hb : b ≠ "") :
    marshalJSONValue JSONValue.vnil = Except.ok nullStringNone
    ∧ marshalJSONValue (JSONValue.bytes "") = Except.ok nullStringNone
    ∧ marshalJSONValue (JSONValue.str sbad) = Except.ok nullStringNone
    ∧ nullStringNone.valid = false
    ∧ marshalJSONValue (JSONValue.raw r) = Except.ok { str := r, valid := true }
    ∧ marshalJSONValue (JSONValue.bytes b) = Except.ok { str := b, valid := true }
    ∧ marshalJSONValue (JSONValue.str s) = Except.ok { str := s, valid := true }
    ∧ marshalJSONValue (JSONValue.other (some enc))
        = Except.ok { str := enc, valid := true } := by
  refine ⟨rfl, rfl, ?_, rfl, rfl, ?_, ?_, rfl⟩
  · simp [marshalJSONValue, hsbad]
  · simp [marshalJSONValue, hb]
  · simp [marshalJSONValue, hs]

/-- C5 witness: a white-space-only string payload is stored as SQL NULL. -/
theorem marshal_null_and_passthrough_witness :
    marshalJSONValue (JSONValue.str "  ") = Except.ok nullStringNone :=
  (marshal_null_and_passthrough "x" "  " "b" "r" "e"
    (by decide) (by decide) (by decide)).2.2.1

/-- The loop of the dollar branch produces the ascending placeholder list. -/
theorem range_map_dollar (n : Nat) :
    (List.range n).map (fun i => "$" ++ Nat.repr (i + 1)) = dollarListAsc n := by
  induction n with
  | zero => rfl
  | succ m ih =>
    rw [List.range_succ, List.map_append, ih]
    rfl

/-- C6: for n at least one, the dollar style builds the ascending list of
numbered placeholders joined by commas, the question style builds the
question mark repeated n times joined by commas, and for the same entry both
styles bind exactly the same ordered value list in the insert statement. -/
theorem placeholder_styles_agree (n : Nat) (hn : 1 ≤ n) (table : String)
    (execD execQ : Stmt → Option String) (nowVal : GoTime)
    (rand : Option (Fin 16 → Fin 256)) (nano : Int) (entry : Entry) :
    buildPlaceholders PlaceholderStyle.dollar n = String.intercalate ", " (dollarListAsc n)
    ∧ buildPlaceholders PlaceholderStyle.question n
        = String.intercalate ", " (List.replicate n "?")
    ∧ (auditTrailRecord { table := table, placeholder := PlaceholderStyle.dollar, dbOK := true }
          execD nowVal rand nano entry).2.map Stmt.args
      = (auditTrailRecord { table := table, placeholder := PlaceholderStyle.question, dbOK := true }
          execQ nowVal rand nano entry).2.map Stmt.args := by
  refine ⟨?_, rfl, ?_⟩
  · unfold buildPlaceholders
    rw [range_map_dollar]
  · unfold auditTrailRecord
    cases hnorm : normalizeEntry entry nowVal rand nano with
    | error e => simp
    | ok m =>
      cases hq : marshalJSONValue m.request with
      | error e => simp [hq]
      | ok reqV =>
        cases hr : marshalJSONValue m.response with
        | error e => simp [hq, hr]
        | ok respV => simp [hq, hr]

/-- C6 witness: at n equal eight the dollar placeholders are the ascending
joined list. -/
theorem placeholder_styles_agree_witness :
    buildPlaceholders PlaceholderStyle.dollar 8 = String.intercalate ", " (dollarListAsc 8) :=
  (placeholder_styles_agree 8 (by decide) "audit_trail" execOkW execOkW nowW randW 0 entryW).1

/-- C7: per delivered message, a successful decode followed by an error-free
handler yields exactly one ack, one handler invocation, one insert execution
and no onError call; a handler error yields exactly one nack, one onError
call and at most one insert execution (no pipeline retry); a decode failure
yields one nack with no handler invocation and no insert; and the return of
Run is exactly the terminal subscription error, never a per-message decode
failure. -/
theorem consumer_ack_nack_discipline (dec : String → Option Entry) (r : AuditTrailH)
    (exec : Stmt → Option String) (nowVal : GoTime) (rand : Option (Fin 16 → Fin 256))
    (nano : Int) (data : String) (msgs : List String) (terminal : Option String) :
    (∀ e, dec data = some e → (consumerRecord r exec nowVal rand nano e).1 = none →
      consumerProcessMessage dec true r exec nowVal rand nano data
        = { decision := Ack.ack, handlerInvoked := true, insertCalls := 1, onErrorCalls := 0 })
    ∧ (∀ e err, dec data = some e → (consumerRecord r exec nowVal rand nano e).1 = some err →
        (consumerProcessMessage dec true r exec nowVal rand nano data).decision = Ack.nack
        ∧ (consumerProcessMessage dec true r exec nowVal rand nano data).onErrorCalls = 1
        ∧ (consumerProcessMessage dec true r exec nowVal rand nano data).insertCalls ≤ 1)
    ∧ (dec data = none →
        consumerProcessMessage dec true r exec nowVal rand nano data
          = { decision := Ack.nack, handlerInvoked := false, insertCalls := 0,
              onErrorCalls := 0 })
    ∧ (consumerRun dec true r exec nowVal rand nano msgs terminal).2 = terminal := by
  refine ⟨?_, ?_, ?_, rfl⟩
  · intro e hdec hrec
    have hlen : (consumerRecord r exec nowVal rand nano e).2 = 1 :=
      (auditTrailRecord_insert_count r exec nowVal rand nano e).1 hrec
    have hpair : consumerRecord r exec nowVal rand nano e = (none, 1) := by
      rw [Prod.ext_iff]
      exact ⟨hrec, hlen⟩
    unfold consumerProcessMessage processMessage
    simp only [hdec, hpair]
  · intro e err hdec hrec
    have hle : (auditTrailRecord r exec nowVal rand nano e).2.length ≤ 1 :=
      (auditTrailRecord_insert_count r exec nowVal rand nano e).2
    have hpair : consumerRecord r exec nowVal rand nano e
        = (some err, (auditTrailRecord r exec nowVal rand nano e).2.length) := by
      rw [Prod.ext_iff]
      exact ⟨hrec, rfl⟩
    unfold consumerProcessMessage processMessage
    simp only [hdec, hpair]
    simpa using hle
  · intro hdec
    unfold consumerProcessMessage processMessage
    rw [hdec]

/-- C7 witness: a message that decodes to an already-normalized entry with an
accepting store is acked after exactly one insert and no onError call. -/
theorem consumer_ack_nack_discipline_witness :
    consumerProcessMessage decW true atW execOkW nowW randW 0 "good"
      = { decision := Ack.ack, handlerInvoked := true, insertCalls := 1, onErrorCalls := 0 } :=
  (consumer_ack_nack_discipline decW atW execOkW nowW randW 0 "good" [] none).1
    entryNormW (by decide) (by decide)

/-- C8 counterexample: the consume side does re-run normalization.  For the
concrete decoded entry entryDecodedW (empty id, valid action, non-zero
date) the consumer handler executes an insert whose bound id is a freshly
generated one, not the id exactly as decoded, refuting the claim that id,
action and creation timestamp are passed exactly as decoded for every
successfully decoded entry. -/
theorem consumer_rewrites_unnormalized_id :
    (auditTrailRecord atW execOkW nowW randW 0 entryDecodedW).2.map (fun s => s.args.get? 0)
    ≠ [some (SQLValue.str entryDecodedW.id)] := by
  decide

/-- C8 amended: the consumer handler re-runs normalization through the store
Record, but on every successfully decoded entry that is already normalized
(non-empty id, non-empty trimmed action, non-zero creation date)
normalization is the identity, so every insert it executes binds the id, the
action and the creation timestamp exactly as decoded. -/
theorem consumer_insert_preserves_normalized_fields (r : AuditTrailH)
    (exec : Stmt → Option String) (nowVal : GoTime) (rand : Option (Fin 16 → Fin 256))
    (nano : Int) (e : Entry) (hid : e.id ≠ "") (ht : goTrimSpace e.action ≠ "")
    (hz : e.createdDate.isZero = false) :
    fillDate (fillID e rand nano) nowVal = e
    ∧ ∀ stmt ∈ (auditTrailRecord r exec nowVal rand nano e).2,
        stmt.args.get? 0 = some (SQLValue.str e.id)
        ∧ stmt.args.get? 2 = some (SQLValue.str e.action)
        ∧ stmt.args.get? 6 = some (SQLValue.time e.createdDate) := by
  have hfix : fillDate (fillID e rand nano) nowVal = e := by
    rw [fillID_of_ne e rand nano hid, fillDate_of_nonzero e nowVal hz]
  refine ⟨hfix, ?_⟩
  unfold auditTrailRecord
  split
  · simp
  · rw [normalizeEntry_ok e nowVal rand nano ht, hfix]
    cases hq : marshalJSONValue e.request with
    | error msg => simp [hq]
    | ok reqV =>
      cases hr : marshalJSONValue e.response with
      | error msg => simp [hq, hr]
      | ok respV =>
        intro stmt hmem
        simp [hq, hr] at hmem
        subst hmem
        exact ⟨rfl, rfl, rfl⟩

/-- C8 amended witness: on the already-normalized concrete entry the re-run
normalization is the identity. -/
theorem consumer_insert_preserves_normalized_fields_witness :
    fillDate (fillID entryNormW randW 0) nowW = entryNormW :=
  (consumer_insert_preserves_normalized_fields atW execOkW nowW randW 0 entryNormW
    (by decide) (by decide) (by decide)).1

/-- C9: Shutdown in the uninitialized lifecycle state (both flags down, in
particular before any initialization ever ran) returns no error, calls no
cancellation, closes no resource, and leaves the state unchanged. -/
theorem shutdown_uninitialized_noop (st : RuntimeState) (wait : WaitOutcome)
    (h1 : st.initialized = false) (h2 : st.initializing = false) :
    shutdown st wait
      = { state := st, err := none, cancelCalled := false, clientClosed := false,
          dbClosed := false } := by
  unfold shutdown
  rw [if_pos h1]
  obtain ⟨a, b, c, d, e⟩ := st
  simp at h2
  subst h2
  rfl

/-- C9 witness: Shutdown on the fresh runtime state is a no-op returning no
error. -/
theorem shutdown_uninitialized_noop_witness :
    shutdown emptyRuntimeState WaitOutcome.done
      = { state := emptyRuntimeState, err := none, cancelCalled := false,
          clientClosed := false, dbClosed := false } :=
  shutdown_uninitialized_noop emptyRuntimeState WaitOutcome.done rfl rfl

/-- C10: frame property of normalization: on a valid action the returned
entry agrees with the input on action, requestID, endpoint, request,
response and createdBy, and the id (respectively the creation date) changes
only when it was empty (respectively zero) in the input. -/
theorem normalize_frame_property (entry : Entry) (nowVal : GoTime)
    (rand : Option (Fin 16 → Fin 256)) (nano : Int)
    (ht : goTrimSpace entry.action ≠ "") :
    normalizeEntry entry nowVal rand nano
      = Except.ok (fillDate (fillID entry rand nano) nowVal)
    ∧ (fillDate (fillID entry rand nano) nowVal).action = entry.action
    ∧ (fillDate (fillID entry rand nano) nowVal).requestID = entry.requestID
    ∧ (fillDate (fillID entry rand nano) nowVal).endpoint = entry.endpoint
    ∧ (fillDate (fillID entry rand nano) nowVal).request = entry.request
    ∧ (fillDate (fillID entry rand nano) nowVal).response = entry.response
    ∧ (fillDate (fillID entry rand nano) nowVal).createdBy = entry.createdBy
    ∧ (entry.id ≠ "" → (fillDate (fillID entry rand nano) nowVal).id = entry.id)
    ∧ (entry.createdDate.isZero = false →
        (fillDate (fillID entry rand nano) nowVal).createdDate = entry.createdDate) := by
  refine ⟨normalizeEntry_ok entry nowVal rand nano ht, ?_, ?_, ?_, ?_, ?_, ?_, ?_, ?_⟩
  · rw [fillDate_action, fillID_action]
  · rw [fillDate_requestID, fillID_requestID]
  · rw [fillDate_endpoint, fillID_endpoint]
  · rw [fillDate_request, fillID_request]
  · rw [fillDate_response, fillID_response]
  · rw [fillDate_createdBy, fillID_createdBy]
  · intro h1
    rw [fillDate_id, fillID_of_ne entry rand nano h1]
  · intro h2
    rw [fillDate_of_nonzero _ nowVal (by rw [fillID_createdDate]; exact h2),
      fillID_createdDate]

/-- C10 witness: the action of the concrete caller entry survives
normalization unchanged. -/
theorem normalize_frame_property_witness :
    (fillDate (fillID entryW randW 0) nowW).action = entryW.action :=
  (normalize_frame_property entryW nowW randW 0 (by decide)).2.1

end AuditTrailModel
